import Mathlib

/-!
Shallow embedding of the GPU telemetry monitor in src/main.cpp.

The NVML library is modelled as an external collaborator: a structure of
query functions (the Provider).  Each query returns a pair consisting of
an nvmlReturn_t status code (0 is NVML_SUCCESS) and the value written to
the out parameter; the value component is meaningful only when the status
is 0, matching the C calling convention in which the out parameter is
left untouched on failure.

The checkError macro of the C source prints a message, calls
nvmlShutdown() and returns the error code whenever a status is nonzero.
In the embedding every function that contains checkError call sites
returns, besides its value, the status code it returns with and the
number of nvmlShutdown() calls it performed (one per triggered
checkError, zero otherwise).
-/

def NVML_SUCCESS : Nat := 0
def NVML_ERROR_NO_PERMISSION : Nat := 4
def NVML_ERROR_DRIVER_NOT_LOADED : Nat := 9
def NVML_ERROR_UNKNOWN : Nat := 999
def NVML_DRIVER_WDDM : Nat := 0

/-- The sentinel unsigned(-1) used by the C source for unavailable
fan speed and power readings, as a 32-bit unsigned value. -/
def UNAVAILABLE : Nat := 4294967295

/-- nvmlUtilization_t: gpu and memory utilization percentages. -/
structure NvmlUtilization where
  gpu : Nat
  memory : Nat
deriving DecidableEq

/-- nvmlMemory_t: total, free and used bytes. -/
structure NvmlMemory where
  total : Nat
  free : Nat
  used : Nat
deriving DecidableEq

/-- The state of struct GPUDevice (src/main.cpp lines 18-37).
Device handles are modelled as opaque Nat values. -/
structure GPUDevice where
  index : Nat
  name : String
  fanSpeed : Nat
  power : Nat
  temperature : Nat
  utilization : NvmlUtilization
  dmCurrent : Nat
  dmPending : Nat
  memory : NvmlMemory
  handle : Nat
deriving DecidableEq

/-- GPUDevice::GPUDevice() zero-fills the whole struct with memset. -/
def GPUDevice.blank : GPUDevice :=
  { index := 0, name := "", fanSpeed := 0, power := 0, temperature := 0,
    utilization := { gpu := 0, memory := 0 }, dmCurrent := 0, dmPending := 0,
    memory := { total := 0, free := 0, used := 0 }, handle := 0 }

/-- The external NVML collaborator at one instant: every query the program
makes, as a pure response function.  Status code 0 means success. -/
structure Provider where
  init : Nat
  driverVersion : Nat × String
  deviceCount : Nat × Nat
  handleByIndex : Nat → Nat × Nat
  name : Nat → Nat × String
  driverModel : Nat → Nat × Nat × Nat
  fanSpeed : Nat → Nat × Nat
  memoryInfo : Nat → Nat × NvmlMemory
  powerUsage : Nat → Nat × Nat
  temperature : Nat → Nat × Nat
  utilization : Nat → Nat × NvmlUtilization

/-- The name padding block of GPUDevice::init (src/main.cpp lines 52-60):
a name shorter than 22 characters has single spaces appended until its
length is 22 (the one-space-at-a-time while loop is modelled by appending
the required count at once); any other name is left as it is. -/
def padName (name : String) : String :=
  if name.length ≠ 22 then
    if name.length < 22 then
      name ++ String.mk (List.replicate (22 - name.length) ' ')
    else name
  else name

/-- GPUDevice::update (src/main.cpp lines 70-97).  Fan speed and power are
optional: on failure the field gets the UNAVAILABLE sentinel and the
status is reset to NVML_SUCCESS.  Memory, temperature and utilization are
required: a failure triggers checkError (one shutdown, early return of
the code).  Power is converted from milliwatts to watts by dividing by
1000.  The C function has no return statement on the success path (noted
as a defect in the design notes of the specification); at that point the
local status variable holds NVML_SUCCESS and the shipped binary yields 0
there, so the model returns NVML_SUCCESS on that path.

Result: (new device state, returned status code, shutdown calls made). -/
def GPUDevice.update (p : Provider) (d : GPUDevice) : GPUDevice × Nat × Nat :=
  let rFan := p.fanSpeed d.handle
  let d1 := if rFan.1 ≠ NVML_SUCCESS then { d with fanSpeed := UNAVAILABLE }
            else { d with fanSpeed := rFan.2 }
  let rMem := p.memoryInfo d.handle
  if rMem.1 ≠ NVML_SUCCESS then (d1, rMem.1, 1)
  else
    let d2 := { d1 with memory := rMem.2 }
    let rPow := p.powerUsage d.handle
    let d3 := if rPow.1 ≠ NVML_SUCCESS then { d2 with power := UNAVAILABLE }
              else { d2 with power := rPow.2 / 1000 }
    let rTemp := p.temperature d.handle
    if rTemp.1 ≠ NVML_SUCCESS then (d3, rTemp.1, 1)
    else
      let d4 := { d3 with temperature := rTemp.2 }
      let rUtil := p.utilization d.handle
      if rUtil.1 ≠ NVML_SUCCESS then (d4, rUtil.1, 1)
      else ({ d4 with utilization := rUtil.2 }, NVML_SUCCESS, 0)

/-- GPUDevice::init (src/main.cpp lines 44-68): resolve the handle for
the stored index, query the name and pad it, query the driver model
(warning only on failure, fields untouched), then run one update.
Handle and name lookups go through checkError. -/
def GPUDevice.init (p : Provider) (d : GPUDevice) : GPUDevice × Nat × Nat :=
  let rH := p.handleByIndex d.index
  if rH.1 ≠ NVML_SUCCESS then (d, rH.1, 1)
  else
    let dH := { d with handle := rH.2 }
    let rN := p.name dH.handle
    if rN.1 ≠ NVML_SUCCESS then (dH, rN.1, 1)
    else
      let dN := { dH with name := padName rN.2 }
      let rDM := p.driverModel dN.handle
      let dD := if rDM.1 ≠ NVML_SUCCESS then dN
                else { dN with dmCurrent := rDM.2.1, dmPending := rDM.2.2 }
      GPUDevice.update p dD

/-- The state of struct DeviceManager (src/main.cpp lines 99-112). -/
structure DeviceManager where
  driverVersion : String
  numDevices : Nat
  devices : List GPUDevice
  valid : Bool
deriving DecidableEq

/-- One iteration body of the enumeration loop in DeviceManager::init:
a freshly default-constructed (zeroed) device gets its index assigned
and is initialized; the status it returns is ignored by the loop. -/
def initDevice (p : Provider) (i : Nat) : GPUDevice × Nat × Nat :=
  GPUDevice.init p { GPUDevice.blank with index := i }

/-- The devices vector after the enumeration loop of DeviceManager::init
ran over indices 0..n-1. -/
def devicesAfterInit (p : Provider) (n : Nat) : List GPUDevice :=
  (List.range n).map (fun i => (initDevice p i).1)

/-- Total number of shutdown calls made by checkError inside the n
per-device initializations of the enumeration loop. -/
def initDevicesShutdowns (p : Provider) (n : Nat) : Nat :=
  ((List.range n).map (fun i => (initDevice p i).2.2)).sum

/-- DeviceManager::init (src/main.cpp lines 114-140).  The three
recognized nvmlInit error codes each print a distinct message, and any
other nonzero code prints nothing; all of them fall through to the final
return 0.  Only on nvmlInit success does the function query the driver
version and the device count (both through checkError) and run the
enumeration loop, whose per-device statuses are ignored.

Result: (updated manager state, returned status code, shutdown calls). -/
def DeviceManager.initFn (p : Provider) (m : DeviceManager) :
    DeviceManager × Nat × Nat :=
  let err := p.init
  if err = NVML_ERROR_DRIVER_NOT_LOADED then (m, 0, 0)
  else if err = NVML_ERROR_NO_PERMISSION then (m, 0, 0)
  else if err = NVML_ERROR_UNKNOWN then (m, 0, 0)
  else if err = NVML_SUCCESS then
    let rV := p.driverVersion
    if rV.1 ≠ NVML_SUCCESS then (m, rV.1, 1)
    else
      let mV := { m with driverVersion := rV.2 }
      let rC := p.deviceCount
      if rC.1 ≠ NVML_SUCCESS then (mV, rC.1, 1)
      else
        let mC := { mV with numDevices := rC.2 }
        ({ mC with devices := devicesAfterInit p rC.2 }, 0,
          initDevicesShutdowns p rC.2)
  else (m, 0, 0)

/-- DeviceManager::DeviceManager (src/main.cpp lines 141-149): members
start as Unknown / 0 / empty / invalid; valid becomes true exactly when
init() returned 0.  Result: (manager, shutdown calls during
construction). -/
def DeviceManager.construct (p : Provider) : DeviceManager × Nat :=
  let m0 : DeviceManager :=
    { driverVersion := "Unknown", numDevices := 0, devices := [], valid := false }
  let r := DeviceManager.initFn p m0
  (if r.2.1 = 0 then { r.1 with valid := true } else r.1, r.2.2)

/-- The range-for loop of DeviceManager::update: update each device in
order; on the first nonzero status stop (break), leaving the remaining
devices untouched.  Result: (new device list, whether a failure
occurred, shutdown calls). -/
def updateDevices (p : Provider) : List GPUDevice → List GPUDevice × Bool × Nat
  | [] => ([], false, 0)
  | d :: rest =>
    let r := GPUDevice.update p d
    if r.2.1 ≠ NVML_SUCCESS then (r.1 :: rest, true, r.2.2)
    else
      let rr := updateDevices p rest
      (r.1 :: rr.1, rr.2.1, r.2.2 + rr.2.2)

/-- DeviceManager::update (src/main.cpp lines 156-164): run the device
loop, clear valid on failure, and return the negation of valid (0 when
still valid, 1 otherwise).  Result: (manager, returned int, shutdown
calls). -/
def DeviceManager.update (p : Provider) (m : DeviceManager) :
    DeviceManager × Nat × Nat :=
  let r := updateDevices p m.devices
  let mNew := { m with devices := r.1,
                       valid := if r.2.1 then false else m.valid }
  (mNew, if mNew.valid then 0 else 1, r.2.2)

/-- The while loop of main (src/main.cpp lines 233-238), with the
external collaborator allowed to answer differently on each cycle
(cycle k uses provider P k).  The cursor move and the print are pure
with respect to the manager state and are omitted here.  When the
validity check fails the loop exits, the DeviceManager destructor runs
(one further nvmlShutdown call, src/main.cpp lines 151-154) and main
returns 0.  fuel bounds the number of iterations modelled: none means
the loop was still running after fuel iterations.

Result on exit: some (exit code of main, total shutdown calls). -/
def runFrom (P : Nat → Provider) :
    Nat → Nat → DeviceManager → Nat → Option (Nat × Nat)
  | 0, _, m, sh => if m.valid then none else some (0, sh + 1)
  | fuel + 1, k, m, sh =>
    if m.valid then
      let r := DeviceManager.update (P k) m
      runFrom P fuel (k + 1) r.1 (sh + r.2.2)
    else some (0, sh + 1)

/-- A whole process run (src/main.cpp lines 231-240): construct the
manager with the cycle-0 provider, then loop, refreshing with the
cycle-k provider on iteration k. -/
def run (P : Nat → Provider) (fuel : Nat) : Option (Nat × Nat) :=
  let c := DeviceManager.construct (P 0)
  runFrom P fuel 1 c.1 c.2

/-- A string of n spaces. -/
def spaces (n : Nat) : String := String.mk (List.replicate n ' ')

/-- printf-style right alignment of a nonnegative integer in a field of
width w (the %wd conversions of the Renderer). -/
def fmtNat (w : Nat) (n : Nat) : String :=
  let s := toString n
  if s.length < w then spaces (w - s.length) ++ s else s

/-- GPUDevice::print (src/main.cpp lines 181-202) as the single output
line it produces (without the trailing newline). -/
def GPUDevice.printLine (d : GPUDevice) : String :=
  let driverMode := if d.dmCurrent = NVML_DRIVER_WDDM then "WDDM" else "TCC "
  let fan := if d.fanSpeed ≠ UNAVAILABLE then " " ++ fmtNat 3 d.fanSpeed ++ "%"
             else " N/A "
  let pow := if d.power ≠ UNAVAILABLE then " " ++ fmtNat 3 d.power ++ "W"
             else " N/A "
  "| " ++ fmtNat 2 d.index ++ " " ++ d.name ++ "  " ++ driverMode ++ " | " ++
    fmtNat 5 (d.memory.used / (1024 * 1024)) ++ " / " ++
    fmtNat 5 (d.memory.total / (1024 * 1024)) ++ " | " ++
    fmtNat 3 d.temperature ++ "C " ++ fan ++ "   " ++ pow ++ "   " ++
    fmtNat 3 d.utilization.gpu ++ "% |"

/-- DeviceManager::print (src/main.cpp lines 166-179) as the list of
output lines of one frame.  The first line is the human readable time
obtained from ctime at the moment of the call; the clock is an input of
the model.  The function reads the manager state and the clock and
writes output; it never refreshes any device. -/
def DeviceManager.printLines (m : DeviceManager) (hrTime : String) :
    List String :=
  hrTime ::
  "+-----------------------------------------------------------------------------+" ::
  ("|             NVidia driver version: " ++ m.driverVersion ++
    "       Device count : " ++ fmtNat 2 m.numDevices ++ "           |") ::
  "|---------------------------------+---------------+---------------------------+" ::
  "| Idx    Name            TCC/WDDM | Memory-usage  | Temp   Fan   Power  Util  |" ::
  "+-----------------------------------------------------------------------------+" ::
  (m.devices.map GPUDevice.printLine ++
    ["+-----------------------------------------------------------------------------+"])

/-! Concrete collaborators used by the closed theorems below. -/

/-- A provider on which every query succeeds, reporting one device. -/
def okProvider : Provider :=
  { init := 0
    driverVersion := (0, "531.41")
    deviceCount := (0, 1)
    handleByIndex := fun i => (0, i + 100)
    name := fun _ => (0, "TestGPU")
    driverModel := fun _ => (0, 1, 1)
    fanSpeed := fun _ => (0, 40)
    memoryInfo := fun _ =>
      (0, { total := 8589934592, free := 6442450944, used := 2147483648 })
    powerUsage := fun _ => (0, 15999)
    temperature := fun _ => (0, 65)
    utilization := fun _ => (0, { gpu := 30, memory := 20 }) }

/-- A provider whose subsystem initialization fails with
NVML_ERROR_DRIVER_NOT_LOADED. -/
def driverNotLoadedProvider : Provider :=
  { okProvider with init := NVML_ERROR_DRIVER_NOT_LOADED }

/-- A provider on which the temperature query (a required metric)
fails with NVML_ERROR_UNKNOWN. -/
def tempFailProvider : Provider :=
  { okProvider with temperature := fun _ => (NVML_ERROR_UNKNOWN, 0) }

/-- A provider on which the fan speed query (an optional metric)
fails with NVML_ERROR_UNKNOWN. -/
def fanFailProvider : Provider :=
  { okProvider with fanSpeed := fun _ => (NVML_ERROR_UNKNOWN, 0) }

/-- A run environment that behaves perfectly during construction
(cycle 0) and fails the temperature query from the first refresh
cycle on. -/
def badRunProviders : Nat → Provider :=
  fun k => if k = 0 then okProvider else tempFailProvider

/-! Frame helper lemmas about GPUDevice.update. -/

/-- update never writes index. -/
theorem GPUDevice.update_index (p : Provider) (d : GPUDevice) :
    ((GPUDevice.update p d).1).index = d.index := by
  simp only [GPUDevice.update]
  repeat' split
  all_goals rfl

/-- update never writes name. -/
theorem GPUDevice.update_name (p : Provider) (d : GPUDevice) :
    ((GPUDevice.update p d).1).name = d.name := by
  simp only [GPUDevice.update]
  repeat' split
  all_goals rfl

/-- update never writes handle. -/
theorem GPUDevice.update_handle (p : Provider) (d : GPUDevice) :
    ((GPUDevice.update p d).1).handle = d.handle := by
  simp only [GPUDevice.update]
  repeat' split
  all_goals rfl

/-- update never writes dmCurrent. -/
theorem GPUDevice.update_dmCurrent (p : Provider) (d : GPUDevice) :
    ((GPUDevice.update p d).1).dmCurrent = d.dmCurrent := by
  simp only [GPUDevice.update]
  repeat' split
  all_goals rfl

/-- update never writes dmPending. -/
theorem GPUDevice.update_dmPending (p : Provider) (d : GPUDevice) :
    ((GPUDevice.update p d).1).dmPending = d.dmPending := by
  simp only [GPUDevice.update]
  repeat' split
  all_goals rfl

/-- C10: refresh writes only the metric fields: for every provider and
every device state, one update leaves the identity fields index, name
and handle and the driver mode fields dmCurrent and dmPending exactly
as they were. -/
theorem claim_c10_update_frame (p : Provider) (d : GPUDevice) :
    ((GPUDevice.update p d).1).index = d.index ∧
    ((GPUDevice.update p d).1).name = d.name ∧
    ((GPUDevice.update p d).1).handle = d.handle ∧
    ((GPUDevice.update p d).1).dmCurrent = d.dmCurrent ∧
    ((GPUDevice.update p d).1).dmPending = d.dmPending :=
  ⟨GPUDevice.update_index p d, GPUDevice.update_name p d,
   GPUDevice.update_handle p d, GPUDevice.update_dmCurrent p d,
   GPUDevice.update_dmPending p d⟩

/-- C1: evaluation of the code at the failing input.  When nvmlInit
fails with NVML_ERROR_DRIVER_NOT_LOADED, DeviceManager::init prints the
failure message but still falls through to return 0, so the constructor
sets valid to true even though the subsystem initialization failed —
contradicting the claim that valid is true iff subsystem initialization
succeeded. -/
theorem claim_c1_valid_true_on_failed_nvmlInit :
    (DeviceManager.construct driverNotLoadedProvider).1.valid = true ∧
    driverNotLoadedProvider.init ≠ NVML_SUCCESS := by
  exact ⟨rfl, by decide⟩

/-- C2 counterexample: the claim that two render calls with no refresh
between them produce byte-identical output is false, because the header
of every frame embeds the wall clock reading taken during the call: the
same registry state rendered at two different clock readings produces
different bytes. -/
theorem claim_c2_counterexample :
    (DeviceManager.construct okProvider).1.printLines
        "Sat Oct 11 12:00:00 2026\n" ≠
      (DeviceManager.construct okProvider).1.printLines
        "Sat Oct 11 12:00:01 2026\n" := by
  decide

/-- C2 (amended): rendering is a pure function of the registry snapshot
and the clock reading and never refreshes any device; with no refresh
between two render calls, every output line except the first (timestamp)
line is byte-identical, whatever the two clock readings are. -/
theorem claim_c2_render_pure_modulo_timestamp (m : DeviceManager)
    (t1 t2 : String) :
    (m.printLines t1).tail = (m.printLines t2).tail := rfl

/-- C5: if the fan speed query fails during a refresh while the required
memory, temperature and utilization queries succeed, fanSpeed receives
the UNAVAILABLE sentinel and update still reports success (status 0),
whatever the optional power query does. -/
theorem claim_c5_optional_fan_failure (p : Provider) (d : GPUDevice)
    (hFan : (p.fanSpeed d.handle).1 ≠ NVML_SUCCESS)
    (hMem : (p.memoryInfo d.handle).1 = NVML_SUCCESS)
    (hTemp : (p.temperature d.handle).1 = NVML_SUCCESS)
    (hUtil : (p.utilization d.handle).1 = NVML_SUCCESS) :
    ((GPUDevice.update p d).1).fanSpeed = UNAVAILABLE ∧
    (GPUDevice.update p d).2.1 = NVML_SUCCESS := by
  simp only [GPUDevice.update, hFan, hMem, hTemp, hUtil, if_true, if_pos]
  repeat' split
  all_goals simp_all

/-- C5 witness at a concrete input. -/
theorem claim_c5_witness :
    (fanFailProvider.fanSpeed GPUDevice.blank.handle).1 ≠ NVML_SUCCESS ∧
    ((GPUDevice.update fanFailProvider GPUDevice.blank).1).fanSpeed =
        UNAVAILABLE ∧
    (GPUDevice.update fanFailProvider GPUDevice.blank).2.1 = NVML_SUCCESS :=
  ⟨by decide,
   claim_c5_optional_fan_failure fanFailProvider GPUDevice.blank
     (by decide) (by decide) (by decide) (by decide)⟩

/-- The padded string has n spaces appended, so n more characters. -/
theorem spaces_length (n : Nat) : (spaces n).length = n := by
  simp [spaces, String.length]

/-- Helper: when the handle and name lookups succeed, the name stored by
GPUDevice::init is the padded queried name, whatever the driver model
query and the subsequent update do. -/
theorem GPUDevice.init_name (p : Provider) (d : GPUDevice) (s : String)
    (h : Nat) (hH : p.handleByIndex d.index = (NVML_SUCCESS, h))
    (hN : p.name h = (NVML_SUCCESS, s)) :
    ((GPUDevice.init p d).1).name = padName s := by
  simp only [GPUDevice.init, hH, hN, GPUDevice.update_name]
  repeat' split
  all_goals simp_all [GPUDevice.update_name]

/-- C7: during device initialization, a queried name shorter than 22
characters is stored right-padded with spaces to exactly 22 characters,
and a queried name of 22 or more characters is stored unchanged. -/
theorem claim_c7_name_padding (p : Provider) (d : GPUDevice) (s : String)
    (h : Nat) (hH : p.handleByIndex d.index = (NVML_SUCCESS, h))
    (hN : p.name h = (NVML_SUCCESS, s)) :
    (s.length < 22 →
      ((GPUDevice.init p d).1).name = s ++ spaces (22 - s.length) ∧
      (((GPUDevice.init p d).1).name).length = 22) ∧
    (22 ≤ s.length → ((GPUDevice.init p d).1).name = s) := by
  have hname := GPUDevice.init_name p d s h hH hN
  constructor
  · intro hlt
    have hpad : padName s = s ++ spaces (22 - s.length) := by
      simp [padName, spaces, Nat.ne_of_lt hlt, hlt]
    refine ⟨by rw [hname, hpad], ?_⟩
    rw [hname, hpad, String.length_append, spaces_length]
    omega
  · intro hge
    have hpad : padName s = s := by
      unfold padName
      split
      · split
        · rename_i h1 h2
          omega
        · rfl
      · rfl
    rw [hname, hpad]

/-- C7 witness at a concrete input: the seven character name TestGPU is
padded to 22 characters. -/
theorem claim_c7_witness :
    ("TestGPU".length < 22) ∧
    ((GPUDevice.init okProvider GPUDevice.blank).1).name =
        "TestGPU" ++ spaces (22 - "TestGPU".length) ∧
    (((GPUDevice.init okProvider GPUDevice.blank).1).name).length = 22 :=
  ⟨by decide,
   (claim_c7_name_padding okProvider GPUDevice.blank "TestGPU" 100
     (by decide) (by decide)).1 (by decide)⟩

/-- C8: when the power query succeeds with mw milliwatts (which requires
the memory query before it to have succeeded), the stored power is mw
divided by 1000 with truncation toward zero; in particular 15000 yields
15 and 15999 also yields 15. -/
theorem claim_c8_power_conversion (p : Provider) (d : GPUDevice) (mw : Nat)
    (hMem : (p.memoryInfo d.handle).1 = NVML_SUCCESS)
    (hPow : p.powerUsage d.handle = (NVML_SUCCESS, mw)) :
    ((GPUDevice.update p d).1).power = mw / 1000 ∧
    (mw = 15000 → ((GPUDevice.update p d).1).power = 15) ∧
    (mw = 15999 → ((GPUDevice.update p d).1).power = 15) := by
  have hp : ((GPUDevice.update p d).1).power = mw / 1000 := by
    simp only [GPUDevice.update, hMem, hPow]
    repeat' split
    all_goals simp_all
  refine ⟨hp, fun h => ?_, fun h => ?_⟩
  · rw [hp, h]
  · rw [hp, h]

/-- C8 witness at a concrete input: 15999 milliwatts is stored as 15
watts. -/
theorem claim_c8_witness :
    okProvider.powerUsage GPUDevice.blank.handle = (NVML_SUCCESS, 15999) ∧
    ((GPUDevice.update okProvider GPUDevice.blank).1).power = 15 :=
  ⟨by decide,
   (claim_c8_power_conversion okProvider GPUDevice.blank 15999
     (by decide) (by decide)).2.2 rfl⟩

/-- Helper: with the memory query succeeding and the temperature query
failing, update returns the temperature error code. -/
theorem GPUDevice.update_temp_fail (p : Provider) (d : GPUDevice)
    (hMem : (p.memoryInfo d.handle).1 = NVML_SUCCESS)
    (hTemp : (p.temperature d.handle).1 ≠ NVML_SUCCESS) :
    (GPUDevice.update p d).2.1 = (p.temperature d.handle).1 := by
  simp only [GPUDevice.update, hMem, hTemp]
  repeat' split
  all_goals simp_all

/-- Helper: if the devices before position i update cleanly and the
device at position i fails, the update loop reports a failure and the
devices after position i are left untouched (the break). -/
theorem updateDevices_stops (p : Provider) :
    ∀ (l : List GPUDevice) (i : Nat), i < l.length →
    (∀ j, j < i →
      (GPUDevice.update p (l.getD j GPUDevice.blank)).2.1 = NVML_SUCCESS) →
    (GPUDevice.update p (l.getD i GPUDevice.blank)).2.1 ≠ NVML_SUCCESS →
    (updateDevices p l).2.1 = true ∧
    ∀ j, i < j →
      (updateDevices p l).1.getD j GPUDevice.blank =
        l.getD j GPUDevice.blank := by
  intro l
  induction l with
  | nil => intro i hi _ _; simp at hi
  | cons d rest ih =>
    intro i hi hpre hfail
    cases i with
    | zero =>
      have hf : (GPUDevice.update p d).2.1 ≠ NVML_SUCCESS := by
        simpa using hfail
      refine ⟨by simp [updateDevices, hf], ?_⟩
      intro j hj
      cases j with
      | zero => omega
      | succ j' => simp [updateDevices, hf, List.getD_cons_succ]
    | succ i' =>
      have h0 : (GPUDevice.update p d).2.1 = NVML_SUCCESS := by
        simpa using hpre 0 (Nat.succ_pos i')
      have hi' : i' < rest.length := by simpa using hi
      have hpre' : ∀ j, j < i' →
          (GPUDevice.update p (rest.getD j GPUDevice.blank)).2.1 =
            NVML_SUCCESS := by
        intro j hj
        simpa [List.getD_cons_succ] using hpre (j + 1) (by omega)
      have hfail' :
          (GPUDevice.update p (rest.getD i' GPUDevice.blank)).2.1 ≠
            NVML_SUCCESS := by
        simpa [List.getD_cons_succ] using hfail
      obtain ⟨hT, hRest⟩ := ih i' hi' hpre' hfail'
      refine ⟨by simp [updateDevices, h0, hT], ?_⟩
      intro j hj
      cases j with
      | zero => omega
      | succ j' =>
        simp only [updateDevices, h0]
        simpa [List.getD_cons_succ] using hRest j' (by omega)

/-- C4: if during a refresh cycle the required temperature query fails
for the device at position i (its memory query succeeding, the devices
before it updating cleanly), then that update reports failure, the
registry valid flag becomes false, and every device after position i is
left exactly as it was — the cycle stops at the failing device. -/
theorem claim_c4_required_temp_failure (p : Provider) (m : DeviceManager)
    (i : Nat) (hi : i < m.devices.length)
    (hpre : ∀ j, j < i →
      (GPUDevice.update p (m.devices.getD j GPUDevice.blank)).2.1 =
        NVML_SUCCESS)
    (hMem : (p.memoryInfo ((m.devices.getD i GPUDevice.blank)).handle).1 =
      NVML_SUCCESS)
    (hTemp : (p.temperature ((m.devices.getD i GPUDevice.blank)).handle).1 ≠
      NVML_SUCCESS) :
    (GPUDevice.update p (m.devices.getD i GPUDevice.blank)).2.1 ≠
      NVML_SUCCESS ∧
    ((DeviceManager.update p m).1).valid = false ∧
    ∀ j, i < j →
      ((DeviceManager.update p m).1).devices.getD j GPUDevice.blank =
        m.devices.getD j GPUDevice.blank := by
  have hfail :
      (GPUDevice.update p (m.devices.getD i GPUDevice.blank)).2.1 ≠
        NVML_SUCCESS := by
    rw [GPUDevice.update_temp_fail p _ hMem hTemp]
    exact hTemp
  obtain ⟨hT, hRest⟩ := updateDevices_stops p m.devices i hi hpre hfail
  refine ⟨hfail, by simp [DeviceManager.update, hT], ?_⟩
  intro j hj
  simpa [DeviceManager.update] using hRest j hj

/-- C4 witness at a concrete input: a registry built from the all-good
provider, refreshed against the provider whose temperature query fails,
becomes invalid. -/
theorem claim_c4_witness :
    0 < (DeviceManager.construct okProvider).1.devices.length ∧
    ((DeviceManager.update tempFailProvider
        (DeviceManager.construct okProvider).1).1).valid = false :=
  ⟨by decide,
   (claim_c4_required_temp_failure tempFailProvider
       (DeviceManager.construct okProvider).1 0 (by decide)
       (fun j hj => absurd hj (Nat.not_lt_zero j))
       (by decide) (by decide)).2.1⟩

/-- Helper: GPUDevice::init never writes index. -/
theorem GPUDevice.init_index (p : Provider) (d : GPUDevice) :
    ((GPUDevice.init p d).1).index = d.index := by
  simp only [GPUDevice.init]
  repeat' split
  all_goals simp_all [GPUDevice.update_index]

/-- Helper: the update loop keeps the device count. -/
theorem updateDevices_length (p : Provider) :
    ∀ l : List GPUDevice, ((updateDevices p l).1).length = l.length := by
  intro l
  induction l with
  | nil => rfl
  | cons d rest ih =>
    simp only [updateDevices]
    split
    · simp
    · simpa using ih

/-- Helper: the update loop keeps every index, position by position. -/
theorem updateDevices_getD_index (p : Provider) :
    ∀ (l : List GPUDevice) (j : Nat),
      (((updateDevices p l).1).getD j GPUDevice.blank).index =
        ((l.getD j GPUDevice.blank)).index := by
  intro l
  induction l with
  | nil => intro j; rfl
  | cons d rest ih =>
    intro j
    simp only [updateDevices]
    split
    · cases j with
      | zero => simpa using GPUDevice.update_index p d
      | succ j' => simp [List.getD_cons_succ]
    · cases j with
      | zero => simpa using GPUDevice.update_index p d
      | succ j' => simpa [List.getD_cons_succ] using ih j'

/-- Helper: the devices produced by the enumeration loop carry their
enumeration position as index. -/
theorem devicesAfterInit_getD_index (p : Provider) (n i : Nat)
    (hi : i < n) :
    ((devicesAfterInit p n).getD i GPUDevice.blank).index = i := by
  unfold devicesAfterInit
  rw [List.getD_eq_getElem?_getD, List.getElem?_map, List.getElem?_range hi]
  simpa using GPUDevice.init_index p { GPUDevice.blank with index := i }

/-- Helper: right after construction every stored device carries its
enumeration position as index. -/
theorem construct_getD_index (p : Provider) (i : Nat)
    (hi : i < (DeviceManager.construct p).1.devices.length) :
    (((DeviceManager.construct p).1.devices.getD i GPUDevice.blank)).index =
      i := by
  have hdev : (DeviceManager.construct p).1.devices = [] ∨
      (DeviceManager.construct p).1.devices =
        devicesAfterInit p p.deviceCount.2 := by
    simp only [DeviceManager.construct, DeviceManager.initFn]
    repeat' split
    all_goals simp
  rcases hdev with h | h
  · rw [h] at hi
    simp at hi
  · rw [h] at hi ⊢
    exact devicesAfterInit_getD_index p _ i
      (by simpa [devicesAfterInit] using hi)

/-- Helper: any number of whole-registry refresh cycles keeps both the
device count and every stored index. -/
theorem foldUpdate_getD_index (ps : List Provider) :
    ∀ m : DeviceManager,
      ((ps.foldl (fun acc q => (DeviceManager.update q acc).1) m).devices.length
          = m.devices.length) ∧
      ∀ j, (((ps.foldl (fun acc q => (DeviceManager.update q acc).1)
              m).devices.getD j GPUDevice.blank)).index =
          ((m.devices.getD j GPUDevice.blank)).index := by
  induction ps with
  | nil => intro m; exact ⟨rfl, fun _ => rfl⟩
  | cons q ps ih =>
    intro m
    have h1 := ih ((DeviceManager.update q m).1)
    constructor
    · rw [List.foldl_cons, h1.1]
      exact updateDevices_length q m.devices
    · intro j
      rw [List.foldl_cons, h1.2 j]
      exact updateDevices_getD_index q m.devices j

/-- C9: for every device, index after construction equals its position
in enumeration order, and it is still that position after any sequence
of refresh cycles (each cycle refreshing against an arbitrary provider
state). -/
theorem claim_c9_index_stable (p : Provider) (ps : List Provider) (i : Nat)
    (hi : i < ((ps.foldl (fun acc q => (DeviceManager.update q acc).1)
        (DeviceManager.construct p).1).devices.length)) :
    (((ps.foldl (fun acc q => (DeviceManager.update q acc).1)
        (DeviceManager.construct p).1).devices.getD i
          GPUDevice.blank)).index = i := by
  have h := foldUpdate_getD_index ps (DeviceManager.construct p).1
  rw [h.2 i]
  exact construct_getD_index p i (by rw [← h.1]; exact hi)

/-- C9 witness at a concrete input: one device enumerated, one refresh
cycle run, index of the device at position 0 is 0. -/
theorem claim_c9_witness :
    0 < (([okProvider] : List Provider).foldl
          (fun acc q => (DeviceManager.update q acc).1)
          (DeviceManager.construct okProvider).1).devices.length ∧
    ((([okProvider] : List Provider).foldl
          (fun acc q => (DeviceManager.update q acc).1)
          (DeviceManager.construct okProvider).1).devices.getD 0
            GPUDevice.blank).index = 0 :=
  ⟨by decide, claim_c9_index_stable okProvider [okProvider] 0 (by decide)⟩

/-- Helper: a device update that reports failure has performed exactly
one checkError shutdown on its way out. -/
theorem GPUDevice.update_fail_shutdown (p : Provider) (d : GPUDevice) :
    (GPUDevice.update p d).2.1 ≠ NVML_SUCCESS →
      1 ≤ (GPUDevice.update p d).2.2 := by
  simp only [GPUDevice.update]
  repeat' split
  all_goals simp

/-- Helper: a failing pass of the device update loop has performed at
least one shutdown. -/
theorem updateDevices_fail_shutdown (p : Provider) :
    ∀ l : List GPUDevice, (updateDevices p l).2.1 = true →
      1 ≤ (updateDevices p l).2.2 := by
  intro l
  induction l with
  | nil => intro h; simp [updateDevices] at h
  | cons d rest ih =>
    intro h
    by_cases hf : (GPUDevice.update p d).2.1 = NVML_SUCCESS
    · simp only [updateDevices, hf] at h ⊢
      simp only [ne_eq, not_true_eq_false, if_false] at h ⊢
      have := ih h
      omega
    · simp only [updateDevices] at h ⊢
      simp only [ne_eq, hf, not_false_eq_true, if_true] at h ⊢
      exact GPUDevice.update_fail_shutdown p d hf

/-- Helper: a refresh cycle that turns a valid registry invalid has
performed at least one shutdown. -/
theorem managerUpdate_invalidated_shutdown (p : Provider)
    (m : DeviceManager) (hv : m.valid = true)
    (hf : ((DeviceManager.update p m).1).valid = false) :
    1 ≤ (DeviceManager.update p m).2.2 := by
  simp only [DeviceManager.update] at hf ⊢
  by_cases hb : (updateDevices p m.devices).2.1 = true
  · exact updateDevices_fail_shutdown p m.devices hb
  · simp [hb, hv] at hf

/-- Helper: a construction that leaves the registry invalid has already
performed at least one shutdown (via checkError on the driver version or
device count query). -/
theorem construct_invalid_shutdown (p : Provider) :
    (DeviceManager.construct p).1.valid = false →
      1 ≤ (DeviceManager.construct p).2 := by
  simp only [DeviceManager.construct, DeviceManager.initFn]
  repeat' split
  all_goals simp_all

/-- Helper: a loop that exits within its fuel returns exit code 0. -/
theorem runFrom_exit_zero (P : Nat → Provider) :
    ∀ (fuel k : Nat) (m : DeviceManager) (sh : Nat) (r : Nat × Nat),
      runFrom P fuel k m sh = some r → r.1 = 0 := by
  intro fuel
  induction fuel with
  | zero =>
    intro k m sh r hr
    cases hm : m.valid with
    | true => simp [runFrom, hm] at hr
    | false =>
      have he : runFrom P 0 k m sh = some (0, sh + 1) := by
        simp [runFrom, hm]
      rw [he] at hr
      injection hr with h1
      subst h1
      rfl
  | succ fuel ih =>
    intro k m sh r hr
    cases hm : m.valid with
    | true =>
      simp only [runFrom, hm, if_true] at hr
      exact ih _ _ _ _ hr
    | false =>
      have he : runFrom P (fuel + 1) k m sh = some (0, sh + 1) := by
        simp [runFrom, hm]
      rw [he] at hr
      injection hr with h1
      subst h1
      rfl

/-- Helper: a loop that exits within its fuel has accumulated at least
two shutdown calls, provided that an already-invalid entry state can
only have arisen from at least one earlier shutdown. -/
theorem runFrom_shutdowns (P : Nat → Provider) :
    ∀ (fuel k : Nat) (m : DeviceManager) (sh : Nat),
      (m.valid = false → 1 ≤ sh) →
      ∀ r : Nat × Nat, runFrom P fuel k m sh = some r → 2 ≤ r.2 := by
  intro fuel
  induction fuel with
  | zero =>
    intro k m sh hinv r hr
    cases hm : m.valid with
    | true => simp [runFrom, hm] at hr
    | false =>
      have he : runFrom P 0 k m sh = some (0, sh + 1) := by
        simp [runFrom, hm]
      rw [he] at hr
      injection hr with h1
      subst h1
      have := hinv hm
      simp
      omega
  | succ fuel ih =>
    intro k m sh hinv r hr
    cases hm : m.valid with
    | true =>
      simp only [runFrom, hm, if_true] at hr
      refine ih (k + 1) _ _ ?_ r hr
      intro hvf
      have := managerUpdate_invalidated_shutdown (P k) m hm hvf
      omega
    | false =>
      have he : runFrom P (fuel + 1) k m sh = some (0, sh + 1) := by
        simp [runFrom, hm]
      rw [he] at hr
      injection hr with h1
      subst h1
      have := hinv hm
      simp
      omega

/-- C3 counterexample: in the run driven by badRunProviders a fatal
refresh error with provider code NVML_ERROR_UNKNOWN (999) is detected
on the first refresh cycle, yet the process exit code is 0, not 999 —
the claim that a fatal error yields a nonzero exit code equal to the
provider error code is false. -/
theorem claim_c3_counterexample :
    (GPUDevice.update (badRunProviders 1)
        ((DeviceManager.construct (badRunProviders 0)).1.devices.getD 0
          GPUDevice.blank)).2.1 = NVML_ERROR_UNKNOWN ∧
    run badRunProviders 2 = some (0, 2) ∧
    (0 : Nat) ≠ NVML_ERROR_UNKNOWN :=
  ⟨by decide, by decide, by decide⟩

/-- C3 (amended): whenever the run loop exits, main returns 0 — the
process exit code is always 0; provider error codes are printed but are
never surfaced as the exit status. -/
theorem claim_c3_exit_always_zero (P : Nat → Provider) (fuel : Nat)
    (r : Nat × Nat) (h : run P fuel = some r) : r.1 = 0 := by
  simp only [run] at h
  exact runFrom_exit_zero P fuel 1 _ _ r h

/-- C3 amended claim witness at a concrete terminating run. -/
theorem claim_c3_witness :
    run badRunProviders 2 = some (0, 2) ∧ ((0, 2) : Nat × Nat).1 = 0 :=
  ⟨by decide, claim_c3_exit_always_zero badRunProviders 2 (0, 2) (by decide)⟩

/-- C6 counterexample: in the terminating run driven by badRunProviders
the subsystem handle is released twice — once by checkError at the
fatal temperature failure and once by the destructor — not exactly
once as the claim states. -/
theorem claim_c6_counterexample :
    run badRunProviders 2 = some (0, 2) ∧ (2 : Nat) ≠ 1 :=
  ⟨by decide, by decide⟩

/-- C6 (amended): in every terminating process run the subsystem handle
is released at least twice: once by the registry destructor and at
least once more by the checkError macro at the fatal call that made the
registry invalid.  (A run with no fatal error never terminates, so the
destructor and its single release are never reached.) -/
theorem claim_c6_shutdown_at_least_twice (P : Nat → Provider) (fuel : Nat)
    (r : Nat × Nat) (h : run P fuel = some r) : 2 ≤ r.2 := by
  simp only [run] at h
  exact runFrom_shutdowns P fuel 1 _ _ (construct_invalid_shutdown (P 0)) r h

/-- C6 amended claim witness at a concrete terminating run. -/
theorem claim_c6_witness :
    run badRunProviders 2 = some (0, 2) ∧ 2 ≤ ((0, 2) : Nat × Nat).2 :=
  ⟨by decide,
   claim_c6_shutdown_at_least_twice badRunProviders 2 (0, 2) (by decide)⟩
